import Mathlib

/-!
Verification of the error-translation and driver-loading layer of a
python-snap7 binding (`snap7/common.py`) and of the Partner endpoint
surface exercised by its tests (`tests/test_partner.py`).

The Python source is shallowly embedded: the native driver is an external
collaborator, modelled as a record of the entry points the embedded code
invokes; functions that can raise return `Except Err`; every call the
embedded code makes into the driver is recorded in a `List DriverCall`
trace so that "without reaching the driver" is a provable statement.
-/

namespace Snap7

/-- Contents of a `c_char` text buffer after a driver call, as returned by
`ctypes` `.value` (bytes up to the first NUL). -/
abbrev Bytes := List Nat

/-- The native driver surface consumed by `error_text`: the three
role-specific error-text entry points (`Cli_ErrorText`, `Srv_ErrorText`,
`Par_ErrorText`). Each takes the raw error code and the buffer length and
yields the text the driver leaves in the buffer. -/
structure Library where
  Cli_ErrorText : Int → Nat → Bytes
  Srv_ErrorText : Int → Nat → Bytes
  Par_ErrorText : Int → Nat → Bytes

/-- A call made into the native driver, recorded for tracing. -/
inductive DriverCall where
  | cli (code : Int) (len : Nat)
  | srv (code : Int) (len : Nat)
  | par (code : Int) (len : Nat)
  deriving DecidableEq, Repr

/-- Python exceptions raised by the embedded code. `typeError` is the
`TypeError` of `error_text`; `runtimeError` is the `RuntimeError` of
`check_error`, carrying the decoded driver text; `runtimeErrorS` is a
`RuntimeError` carrying a plain string (library loading, Partner-level
failures named by the spec: `invalidParameter`, `noPendingOperation`,
`timeoutErr`, `endpointDestroyed`, `allocationFailed`). -/
inductive Err where
  | typeError (msg : String)
  | runtimeError (msg : Bytes)
  | runtimeErrorS (msg : String)
  | invalidParameter
  | noPendingOperation
  | timeoutErr
  | endpointDestroyed
  | allocationFailed
  deriving DecidableEq, Repr

/-- Embedding of `error_text` (common.py lines 112-138): validates the
context, then invokes the role-specific error-text entry point with the
raw code and a 1024-byte buffer, returning the decoded buffer contents.
The second component records the driver calls made. -/
def error_text (lib : Library) (error : Int) (context : String) :
    Except Err Bytes × List DriverCall :=
  if context ≠ "client" ∧ context ≠ "server" ∧ context ≠ "partner" then
    (.error (.typeError ("Unkown context " ++ context ++
      " used, should be either client, server or partner")), [])
  else
    let len := 1024
    if context = "client" then
      (.ok (lib.Cli_ErrorText error len), [.cli error len])
    else if context = "server" then
      (.ok (lib.Srv_ErrorText error len), [.srv error len])
    else if context = "partner" then
      (.ok (lib.Par_ErrorText error len), [.par error len])
    else
      (.ok [], [])

/-- Embedding of `check_error` (common.py lines 95-109): raises
`RuntimeError` with the decoded text when `code` is truthy and not `1`;
otherwise returns normally. The trace records driver calls made via
`error_text`. -/
def check_error (lib : Library) (code : Int) (context : String) :
    Except Err Unit × List DriverCall :=
  if code ≠ 0 ∧ code ≠ 1 then
    match error_text lib code context with
    | (.ok text, calls) => (.error (.runtimeError text), calls)
    | (.error e, calls) => (.error e, calls)
  else
    (.ok (), [])

/-- Embedding of the wrapper produced by `error_hadler_decorator`
(common.py lines 76-93): runs the wrapped function, routes its result
code through `check_error`, and returns the raw code unchanged. -/
def error_hadler_decorator {α : Type} (lib : Library) (context : String)
    (func : α → Int) : α → Except Err Int × List DriverCall :=
  fun a =>
    let code := func a
    match check_error lib code context with
    | (.ok _, calls) => (.ok code, calls)
    | (.error e, calls) => (.error e, calls)

/-- A loaded `ctypes` library object: identified by the path it was
loaded from, so that "the same handle" is expressible. -/
structure CDLL where
  loadedFrom : String
  deriving DecidableEq, Repr

/-- The filesystem and platform facts `find_in_package` and `find_locally`
consult: current working directory, the package directory, file-existence
tests, and the platform tag (`sys.platform`). -/
structure FS where
  cwd : String
  pkgdir : String
  fileExists : String → Bool
  isFile : String → Bool
  platform : String

/-- Embedding of `find_locally` (common.py lines 141-153): the
`{fname}.dll` file in the current working directory, if it exists. -/
def find_locally (fs : FS) (fname : String) : Option String :=
  let file := fs.cwd ++ "/" ++ fname ++ ".dll"
  if fs.fileExists file then some file else none

/-- Embedding of `find_in_package` (common.py lines 156-172): the bundled
binary for the current OS under the package's `lib` directory, if present
as a file. -/
def find_in_package (fs : FS) : Option String :=
  let lib := if fs.platform = "darwin" then "libsnap7.dylib"
             else if fs.platform = "win32" then "snap7.dll"
             else "libsnap7.so"
  let full_path := fs.pkgdir ++ "/lib/" ++ lib
  if fs.fileExists full_path && fs.isFile full_path then some full_path else none

/-- The environment of the loader external to the repository: the
filesystem, the system-wide `ctypes.util.find_library` search, and
`cdll.LoadLibrary`, which opens the library at a path. -/
structure LoaderEnv where
  fs : FS
  find_library : String → Option String
  LoadLibrary : String → CDLL

/-- The singleton state of `Snap7Library`: cached library location and the
loaded handle, both initially absent. -/
structure LibState where
  lib_location : Option String
  cdll : Option CDLL
  deriving DecidableEq, Repr

/-- Embedding of `Snap7Library.__init__` (common.py lines 47-65) acting on
the singleton state: returns early when a handle is already loaded;
otherwise resolves the location as explicit argument, then cached
location, then package-local binary, then system-wide search, then
same-directory file, raising `RuntimeError` when none resolves, and
finally opens the library at the resolved location. -/
def Snap7Library_init (env : LoaderEnv) (s : LibState)
    (lib_location : Option String) : Except Err LibState :=
  if s.cdll.isSome then .ok s
  else
    match lib_location <|> s.lib_location <|> find_in_package env.fs <|>
        env.find_library "snap7" <|> find_locally env.fs "snap7" with
    | none => .error (.runtimeErrorS
        "can't find snap7 library. If installed, try running ldconfig")
    | some loc => .ok { lib_location := some loc, cdll := some (env.LoadLibrary loc) }

/-- Embedding of `load_library` (common.py lines 68-73): runs the
singleton constructor and returns its `cdll` handle together with the
resulting state. -/
def load_library (env : LoaderEnv) (s : LibState) (lib_location : Option String) :
    Except Err (LibState × CDLL) :=
  match Snap7Library_init env s lib_location with
  | .error e => .error e
  | .ok s1 =>
    match s1.cdll with
    | some h => .ok (s1, h)
    | none => .error (.runtimeErrorS "unreachable: init leaves a loaded handle")

/-- Modelled from the spec: the state of the single in-flight asynchronous
send of a Partner endpoint (spec 4.5): idle, pending after an accepted
`as_b_send`, or completed with a result code. -/
inductive AsyncState where
  | idle
  | pending
  | completed (result : Int)
  deriving DecidableEq, Repr

/-- Modelled from the spec: the Partner endpoint (`snap7/partner.py` is not
among the provided sources; only its tests are). It owns one opaque native
handle, non-null while alive and cleared on destroy, plus the in-flight
asynchronous send state. -/
structure Partner where
  pointer : Option Nat
  sendState : AsyncState
  deriving DecidableEq, Repr

/-- Modelled from the spec: `create()` asks the driver to allocate a native
object and fails with `AllocationFailed` when the driver returns a null
handle; `parCreate` is the handle the driver returns. -/
def Partner.create (parCreate : Nat) : Except Err Partner :=
  if parCreate = 0 then .error .allocationFailed
  else .ok { pointer := some parCreate, sendState := .idle }

/-- Modelled from the spec: `destroy()` frees the native object if the
handle is live and clears the handle; on an already-destroyed endpoint it
is a no-op, not an error. The second component counts the native frees the
call performs. -/
def Partner.destroy (p : Partner) : Partner × Nat :=
  match p.pointer with
  | some _ => ({ p with pointer := none }, 1)
  | none => (p, 0)

/-- Modelled from the spec: automatic release when the owner drops the
endpoint (garbage collection) runs the same destroy operation. -/
def Partner.del (p : Partner) : Partner × Nat :=
  p.destroy

/-- Modelled from the spec: `wait_as_b_send_completion` blocks up to the
timeout for the in-flight send; with no asynchronous send outstanding it
fails with `NoPendingOperation` (surfaced as `RuntimeError` by the tests)
rather than blocking or fabricating a result. `completes` says whether,
and with which result, the native layer finishes a pending operation
within the timeout; a timeout raises `timeoutErr`. -/
def Partner.wait_as_b_send_completion (p : Partner) (completes : Option Int) :
    Except Err (Partner × Int) :=
  match p.pointer with
  | none => .error .endpointDestroyed
  | some _ =>
    match p.sendState with
    | .idle => .error .noPendingOperation
    | .pending =>
      match completes with
      | some r => .ok ({ p with sendState := .idle }, r)
      | none => .error .timeoutErr
    | .completed r => .ok ({ p with sendState := .idle }, r)

/-- Modelled from the spec: the fixed enumeration of parameter keys shared
across roles (spec 3 and 6). -/
inductive Param where
  | LocalPort
  | RemotePort
  | PingTimeout
  | SendTimeout
  | RecvTimeout
  | WorkInterval
  | SrcRef
  | DstRef
  | SrcTSap
  | PDURequest
  | MaxClients
  | BSendTimeout
  | BRecvTimeout
  | RecoveryTime
  | KeepAliveTime
  deriving DecidableEq, Repr

/-- Modelled from the spec: read applicability of each key for the partner
role; `MaxClients` is not gettable on a Partner, and `SrcTSap` is absent
from the readable set exercised by `test_get_param`. -/
def Param.partnerReadable : Param → Bool
  | .MaxClients => false
  | .SrcTSap => false
  | _ => true

/-- Modelled from the spec: write applicability of each key for the
partner role; the ports (`LocalPort`, `RemotePort`) are read-only and
`MaxClients` does not apply, matching `test_set_param`. -/
def Param.partnerWritable : Param → Bool
  | .LocalPort => false
  | .RemotePort => false
  | .MaxClients => false
  | _ => true

/-- Modelled from the spec: `get_param` validates the key's read
applicability for the partner role before calling the driver; on a
disallowed key it fails with `InvalidParameter` without reaching the
driver. `driver` gives the native value of an allowed key; the boolean
reports whether the request reached the driver. -/
def Partner.get_param (p : Partner) (driver : Param → Int) (key : Param) :
    Except Err Int × Bool :=
  match p.pointer with
  | none => (.error .endpointDestroyed, false)
  | some _ =>
    if key.partnerReadable then (.ok (driver key), true)
    else (.error .invalidParameter, false)

/-- Modelled from the spec: `set_param` validates the key's write
applicability for the partner role before calling the driver; on a
disallowed key it fails with `InvalidParameter` without reaching the
driver. The boolean reports whether the request reached the driver. -/
def Partner.set_param (p : Partner) (key : Param) (value : Int) :
    Except Err Unit × Bool :=
  match p.pointer with
  | none => (.error .endpointDestroyed, false)
  | some _ =>
    if key.partnerWritable then (.ok (), true)
    else (.error .invalidParameter, false)

/-- A concrete driver used by the closed witness statements: each entry
point returns a one-byte text identifying the role, so that dispatch is
observable. -/
def testLib : Library where
  Cli_ErrorText := fun _ _ => [67]
  Srv_ErrorText := fun _ _ => [83]
  Par_ErrorText := fun _ _ => [80]

/-- A concrete loader environment for the closed witness statements: an
empty filesystem, a failing system-wide search, and a loader that tags the
handle with the path it opened. -/
def testEnv : LoaderEnv where
  fs := { cwd := "/work", pkgdir := "/pkg/snap7", fileExists := fun _ => false,
          isFile := fun _ => false, platform := "linux" }
  find_library := fun _ => none
  LoadLibrary := fun p => ⟨p⟩

end Snap7

namespace Snap7

/-- Claim C10: for result codes 0 and 1, `check_error` returns without
raising for every context string whatsoever and makes no driver call. -/
theorem check_error_soft_codes_never_raise (lib : Library) (context : String) :
    check_error lib 0 context = (.ok (), []) ∧
    check_error lib 1 context = (.ok (), []) := by
  constructor <;> simp [check_error]

/-- Claim C2: for every context string outside client/server/partner and
every result code, `error_text` (the role-validating classification step)
raises `TypeError` before any driver call. -/
theorem error_text_invalid_role (lib : Library) (error : Int) (context : String)
    (h : context ≠ "client" ∧ context ≠ "server" ∧ context ≠ "partner") :
    error_text lib error context =
      (.error (.typeError ("Unkown context " ++ context ++
        " used, should be either client, server or partner")), []) := by
  simp [error_text, h.1, h.2.1, h.2.2]

/-- Claim C1: for a valid role, `check_error` raises a hard error if and
only if the code is neither 0 nor 1; codes 0 and 1 never raise, and every
other integer raises `RuntimeError` carrying exactly the decoded
driver text for that role. -/
theorem check_error_classification (lib : Library) (code : Int) (context : String)
    (hctx : context = "client" ∨ context = "server" ∨ context = "partner") :
    ((code = 0 ∨ code = 1) → (check_error lib code context).1 = .ok ()) ∧
    (code ≠ 0 ∧ code ≠ 1 → ∃ msg,
      (check_error lib code context).1 = .error (.runtimeError msg) ∧
      (error_text lib code context).1 = .ok msg) := by
  constructor
  · intro h
    have hn : ¬(code ≠ 0 ∧ code ≠ 1) := by tauto
    simp [check_error, hn]
  · intro h
    rcases hctx with h1 | h1 | h1 <;> subst h1
    · exact ⟨lib.Cli_ErrorText code 1024, by simp [check_error, error_text, h.1, h.2], rfl⟩
    · exact ⟨lib.Srv_ErrorText code 1024, by simp [check_error, error_text, h.1, h.2], rfl⟩
    · exact ⟨lib.Par_ErrorText code 1024, by simp [check_error, error_text, h.1, h.2], rfl⟩

/-- Witness for C1 at the valid role "partner" and the hard code 2. -/
theorem check_error_classification_witness :
    (((2 : Int) = 0 ∨ (2 : Int) = 1) → (check_error testLib 2 "partner").1 = .ok ()) ∧
    ((2 : Int) ≠ 0 ∧ (2 : Int) ≠ 1 → ∃ msg,
      (check_error testLib 2 "partner").1 = .error (.runtimeError msg) ∧
      (error_text testLib 2 "partner").1 = .ok msg) :=
  check_error_classification testLib 2 "partner" (Or.inr (Or.inr rfl))

/-- Claim C3: when the wrapped function's result code is 0 or 1, the
wrapper built by `error_hadler_decorator` returns exactly that raw code,
unchanged. -/
theorem error_hadler_returns_raw_code {α : Type} (lib : Library) (context : String)
    (func : α → Int) (a : α) (h : func a = 0 ∨ func a = 1) :
    (error_hadler_decorator lib context func a).1 = .ok (func a) := by
  have hn : ¬(func a ≠ 0 ∧ func a ≠ 1) := by tauto
  simp [error_hadler_decorator, check_error, hn]

/-- Witness for C3: a wrapped call returning the soft status 1 is passed
through unchanged. -/
theorem error_hadler_returns_raw_code_witness :
    (error_hadler_decorator testLib "client" (fun _ : Unit => 1) ()).1 = .ok 1 :=
  error_hadler_returns_raw_code testLib "client" (fun _ => 1) () (Or.inr rfl)

/-- Claim C4: for every hard-error code and every valid role, `error_text`
invokes exactly that role's error-text entry point with the raw code and a
1024-byte buffer and returns the decoded buffer contents. -/
theorem error_text_dispatch (lib : Library) (e : Int) (h : e ≠ 0 ∧ e ≠ 1) :
    error_text lib e "client" = (.ok (lib.Cli_ErrorText e 1024), [.cli e 1024]) ∧
    error_text lib e "server" = (.ok (lib.Srv_ErrorText e 1024), [.srv e 1024]) ∧
    error_text lib e "partner" = (.ok (lib.Par_ErrorText e 1024), [.par e 1024]) :=
  ⟨rfl, rfl, rfl⟩

/-- Witness for C4 at the hard-error code 2. -/
theorem error_text_dispatch_witness :
    error_text testLib 2 "client" = (.ok (testLib.Cli_ErrorText 2 1024), [.cli 2 1024]) ∧
    error_text testLib 2 "server" = (.ok (testLib.Srv_ErrorText 2 1024), [.srv 2 1024]) ∧
    error_text testLib 2 "partner" = (.ok (testLib.Par_ErrorText 2 1024), [.par 2 1024]) :=
  error_text_dispatch testLib 2 (by decide)

/-- Claim C5: on first load (no handle cached yet), the library location
is the first candidate to resolve in the order explicit argument, cached
location, package-local binary, system-wide search, same-directory file;
when no candidate resolves, loading fails with `RuntimeError` instead of
producing a handle. -/
theorem snap7Library_resolution_order (env : LoaderEnv) (s : LibState)
    (arg : Option String) (h : s.cdll = none) :
    Snap7Library_init env s arg =
      match List.findSome? id [arg, s.lib_location, find_in_package env.fs,
          env.find_library "snap7", find_locally env.fs "snap7"] with
      | some loc => .ok { lib_location := some loc, cdll := some (env.LoadLibrary loc) }
      | none => .error (.runtimeErrorS
          "can't find snap7 library. If installed, try running ldconfig") := by
  cases arg <;> cases hs : s.lib_location <;> cases hp : find_in_package env.fs <;>
    cases hf : env.find_library "snap7" <;> cases hl : find_locally env.fs "snap7" <;>
    simp [Snap7Library_init, h, hs, hp, hf, hl, List.findSome?]

/-- Witness for C5: a fresh state with an explicit path resolves to that
path and loads it. -/
theorem snap7Library_resolution_order_witness :
    Snap7Library_init testEnv ⟨none, none⟩ (some "/opt/snap7.so") =
      match List.findSome? id [some "/opt/snap7.so", (⟨none, none⟩ : LibState).lib_location,
          find_in_package testEnv.fs, testEnv.find_library "snap7",
          find_locally testEnv.fs "snap7"] with
      | some loc => .ok { lib_location := some loc, cdll := some (testEnv.LoadLibrary loc) }
      | none => .error (.runtimeErrorS
          "can't find snap7 library. If installed, try running ldconfig") :=
  snap7Library_resolution_order testEnv ⟨none, none⟩ (some "/opt/snap7.so") rfl

/-- Claim C6: once a handle is cached, every subsequent `load_library`
call — with any argument, including a different explicit path — returns
the same cached handle and leaves the whole singleton state, in
particular the cached library location, unchanged. -/
theorem load_library_singleton (env : LoaderEnv) (s : LibState) (h : CDLL)
    (arg : Option String) (hl : s.cdll = some h) :
    load_library env s arg = .ok (s, h) := by
  simp [load_library, Snap7Library_init, hl]

/-- Witness for C6: a state loaded from "/a" ignores a later explicit
request for "/b" and returns the handle loaded from "/a". -/
theorem load_library_singleton_witness :
    load_library testEnv ⟨some "/a", some ⟨"/a"⟩⟩ (some "/b") =
      .ok (⟨some "/a", some ⟨"/a"⟩⟩, ⟨"/a"⟩) :=
  load_library_singleton testEnv ⟨some "/a", some ⟨"/a"⟩⟩ ⟨"/a"⟩ (some "/b") rfl

/-- Witness for C2 at the concrete invalid context "bogus" and code 0. -/
theorem error_text_invalid_role_witness :
    error_text testLib 0 "bogus" =
      (.error (.typeError ("Unkown context " ++ "bogus" ++
        " used, should be either client, server or partner")), []) :=
  error_text_invalid_role testLib 0 "bogus" (by decide)

/-- Claim C7: for every endpoint produced by `create()`, `destroy` is
idempotent — a second call on the destroyed endpoint changes nothing and
frees nothing, the automatic garbage-collection release on the destroyed
endpoint likewise frees nothing, and the two calls together free the
native object at most once. -/
theorem partner_destroy_idempotent (parCreate : Nat) (p : Partner)
    (h : Partner.create parCreate = .ok p) :
    (p.destroy.1).destroy = (p.destroy.1, 0) ∧
    (p.destroy.1).del = (p.destroy.1, 0) ∧
    p.destroy.2 + (p.destroy.1).destroy.2 ≤ 1 := by
  unfold Partner.create at h
  by_cases hc : parCreate = 0
  · simp [hc] at h
  · simp [hc] at h
    subst h
    simp [Partner.destroy, Partner.del]

/-- Witness for C7 at the endpoint created from native handle 1. -/
theorem partner_destroy_idempotent_witness :
    (((⟨some 1, .idle⟩ : Partner).destroy.1).destroy
        = ((⟨some 1, .idle⟩ : Partner).destroy.1, 0)) ∧
    (((⟨some 1, .idle⟩ : Partner).destroy.1).del
        = ((⟨some 1, .idle⟩ : Partner).destroy.1, 0)) ∧
    (⟨some 1, .idle⟩ : Partner).destroy.2
        + ((⟨some 1, .idle⟩ : Partner).destroy.1).destroy.2 ≤ 1 :=
  partner_destroy_idempotent 1 ⟨some 1, .idle⟩ rfl

/-- Claim C8: on a live endpoint with no asynchronous send outstanding,
`wait_as_b_send_completion` fails with the typed `NoPendingOperation`
error, whatever the native layer would have reported — it neither waits
on the driver nor fabricates a completion result. -/
theorem wait_no_pending_fails (p : Partner) (hdl : Nat) (completes : Option Int)
    (hp : p.pointer = some hdl) (hs : p.sendState = .idle) :
    p.wait_as_b_send_completion completes = .error .noPendingOperation := by
  simp [Partner.wait_as_b_send_completion, hp, hs]

/-- Witness for C8 at a live idle endpoint, even when the native layer
would report a completion with result 0. -/
theorem wait_no_pending_fails_witness :
    (⟨some 1, .idle⟩ : Partner).wait_as_b_send_completion (some 0)
      = .error .noPendingOperation :=
  wait_no_pending_fails ⟨some 1, .idle⟩ 1 (some 0) rfl rfl

/-- Claim C9: on a live endpoint, `get_param MaxClients` and
`set_param RemotePort v` (for every value `v`) fail with the typed
`InvalidParameter` error, and neither request reaches the driver. -/
theorem partner_param_applicability (p : Partner) (hdl : Nat)
    (driver : Param → Int) (v : Int) (hp : p.pointer = some hdl) :
    p.get_param driver .MaxClients = (.error .invalidParameter, false) ∧
    p.set_param .RemotePort v = (.error .invalidParameter, false) := by
  constructor
  · simp [Partner.get_param, hp, Param.partnerReadable]
  · simp [Partner.set_param, hp, Param.partnerWritable]

/-- Witness for C9 at a live endpoint with a constant driver and value 1. -/
theorem partner_param_applicability_witness :
    (⟨some 1, .idle⟩ : Partner).get_param (fun _ => 0) .MaxClients
      = (.error .invalidParameter, false) ∧
    (⟨some 1, .idle⟩ : Partner).set_param .RemotePort 1
      = (.error .invalidParameter, false) :=
  partner_param_applicability ⟨some 1, .idle⟩ 1 (fun _ => 0) 1 rfl

end Snap7
